import Mathlib

/-!
Shallow embedding of the movie-recommendation service in `main.py`
(FastAPI backend of geeky-rahul/movie-recommendation-system).

The embedding covers:
* `_norm_title`, `build_title_to_idx_map` — the normalized title index;
* `get_best_local_title`, `get_local_idx_by_title` — title resolution
  (exact lookup, then `difflib.get_close_matches` with cutoff 0.6);
* `tfidf_recommend_titles` — similarity ranking over the TF-IDF matrix;
* `attach_tmdb_card_by_title`, `tmdb_cards_from_results` — catalog cards;
* `search_bundle` — the `/movie/search` orchestrator with its fallback.

Modelling conventions:
* Floating-point scores are modelled as rationals (`ℚ`); the claims under
  study only concern comparisons and data flow, not rounding.
* Row indices of the co-indexed artifacts are modelled as `Nat`
  (0-based row ids, as the artifacts are built from dataframe positions).
* Network calls are modelled by an environment (`CatalogEnv`) of functions
  returning `Except`: `.error` stands for a raised exception
  (non-success HTTP status, transport failure, or a missing JSON field
  where the code would raise), `.ok` for a returned JSON payload.
* Python exception control flow becomes explicit `Except` plumbing;
  `try/except` becomes a `match` that maps `.error` to the handler value.
-/

/-- Python `str.lower()` restricted to ASCII case folding (the titles in
the dataset are ASCII); models the `.lower()` in `_norm_title`. -/
def pyLower (s : String) : String := ⟨s.data.map Char.toLower⟩

/-- Python `str.strip()`: drop whitespace from both ends. -/
def pyStrip (s : String) : String :=
  ⟨((s.data.dropWhile Char.isWhitespace).reverse.dropWhile Char.isWhitespace).reverse⟩

/-- `_norm_title(t) = str(t).strip().lower()`. -/
def normTitle (t : String) : String := pyLower (pyStrip t)

/-- Python slice `l[:n]` for an `int` bound `n`: a nonnegative bound keeps
the first `n` elements, a negative bound drops the last `|n|` elements. -/
def pyTake {α : Type} (n : Int) (l : List α) : List α :=
  if 0 ≤ n then l.take n.toNat else l.take (l.length - n.natAbs)

/-- `make_img_url`: prefix a non-empty poster path with the image base URL;
`None` or the empty string (falsy in Python) give `None`. -/
def makeImgUrl (path : Option String) : Option String :=
  match path with
  | none => none
  | some p => if p = "" then none else some ("https://image.tmdb.org/t/p/w500" ++ p)

/-- The `difflib.get_close_matches` cutoff `0.6` used by
`get_best_local_title` (as an exact rational). -/
def simCutoff : ℚ := mkRat 3 5

/-- Lexicographic comparison of strings by code point, as Python compares
`str` values (used by `heapq.nlargest` to break ties between candidates
of equal similarity). -/
def codePointLtB : List Char → List Char → Bool
  | _, [] => false
  | [], _ :: _ => true
  | a :: as, b :: bs =>
    if a.toNat < b.toNat then true
    else if b.toNat < a.toNat then false
    else codePointLtB as bs

/-- `heapq.nlargest(1, [(score(x), x) for x in cands])`: the candidate with
the maximal `(score, string)` pair, first occurrence winning full ties. -/
def pickBest (score : String → ℚ) (cands : List String) : Option String :=
  cands.foldl
    (fun best k =>
      match best with
      | none => some k
      | some b =>
          if score b < score k ∨ (score b = score k ∧ codePointLtB b.data k.data) then some k
          else some b)
    none

/-- `get_best_local_title(title)`: `difflib.get_close_matches` of the
normalized title against the index keys with `n=1, cutoff=0.6`, abstracted
over the `SequenceMatcher` ratio `strSim q k` between the normalized query
`q` and a key `k`. Keeps the keys whose ratio reaches the cutoff and
returns the best one (ties by the larger string, as `nlargest` compares
`(score, string)` tuples), or `none` when no key reaches the cutoff. -/
def getBestLocalTitle (strSim : String → String → ℚ) (keys : List String)
    (title : String) : Option String :=
  pickBest (strSim (normTitle title))
    (keys.filter (fun k => simCutoff ≤ strSim (normTitle title) k))

/-- One step of the dict comprehension in `build_title_to_idx_map`:
Python dict assignment `d[k] = v` — overwrite the value in place when the
key is present (a dict keeps the original position of the key), append the new
entry at the end otherwise. -/
def dictInsert : List (String × Nat) → String → Nat → List (String × Nat)
  | [], k, v => [(k, v)]
  | p :: m, k, v => if p.1 = k then (k, v) :: m else p :: dictInsert m k v

/-- Python dict lookup `d.get(k)` on the association list. -/
def dictLookup (m : List (String × Nat)) (k : String) : Option Nat :=
  (m.find? (fun p => p.1 = k)).map Prod.snd

/-- `build_title_to_idx_map(indices) = {_norm_title(k): int(v) for k, v in
indices.items()}`: insert the entries in load order, later normalized keys
overwriting earlier ones. -/
def buildTitleToIdxMap (indices : List (String × Nat)) : List (String × Nat) :=
  indices.foldl (fun m p => dictInsert m (normTitle p.1) p.2) []

/-- Exceptions `get_local_idx_by_title` can raise: the
`HTTPException(404, "Title not in dataset")`, and the (unreachable)
`KeyError` of `TITLE_TO_IDX[fuzzy]`. -/
inductive LocalErr : Type
  | notFound : LocalErr
  | keyError : LocalErr
deriving DecidableEq

/-- `get_local_idx_by_title(title)`: exact lookup of the normalized title
first; otherwise the fuzzy match over the index keys; otherwise the 404. -/
def getLocalIdxByTitle (strSim : String → String → ℚ) (m : List (String × Nat))
    (title : String) : Except LocalErr Nat :=
  match dictLookup m (normTitle title) with
  | some v => .ok v
  | none =>
      match getBestLocalTitle strSim (m.map Prod.fst) title with
      | some fuzzy =>
          match dictLookup m fuzzy with
          | some v => .ok v
          | none => .error .keyError
      | none => .error .notFound

/-- Dot product of two feature rows (`tfidf_matrix @ qv.T` componentwise). -/
def dot (a b : List ℚ) : ℚ := ((a.zip b).map (fun p => p.1 * p.2)).sum

/-- The score vector of `tfidf_recommend_titles`:
`scores = (tfidf_matrix @ tfidf_matrix[idx].T).toarray().ravel()`. -/
def scoresOf (M : List (List ℚ)) (idx : Nat) : Nat → ℚ :=
  fun i => dot (M.getD i []) (M.getD idx [])

/-- `np.argsort(-scores)`: a permutation of the row indices sorted by
non-increasing score. the default NumPy sort kind is an unstable quicksort,
so the source fixes no particular order among equal scores; this model
uses an insertion sort, one valid argsort result. -/
def argsortDesc (scores : Nat → ℚ) (n : Nat) : List Nat :=
  List.insertionSort (fun i j => scores j ≤ scores i) (List.range n)

/-- The collection loop of `tfidf_recommend_titles`: walk the sorted row
order with the running output length `cnt`, skip the query row `idx`,
append each other row, and break once `len(out) >= top_n` (checked after
the append, so a non-positive `top_n` still lets one row through). -/
def collectTop (idx : Nat) (topN : Int) : List Nat → Nat → List Nat
  | [], _ => []
  | i :: rest, cnt =>
      if i = idx then collectTop idx topN rest cnt
      else if topN ≤ (cnt + 1 : Int) then [i]
      else i :: collectTop idx topN rest (cnt + 1)

/-- The row ids `tfidf_recommend_titles` emits for query row `idx`. -/
def rankRows (M : List (List ℚ)) (idx : Nat) (topN : Int) : List Nat :=
  collectTop idx topN (argsortDesc (scoresOf M idx) M.length) 0

/-- `tfidf_recommend_titles` after title resolution (`rank(row_id, top_n)`
in the spec): the emitted `(df.iloc[i]["title"], float(scores[i]))` pairs. -/
def tfidfFromIdx (df : List String) (M : List (List ℚ)) (idx : Nat)
    (topN : Int) : List (String × ℚ) :=
  (rankRows M idx topN).map (fun i => (df.getD i "", scoresOf M idx i))

/-- `tfidf_recommend_titles(title, top_n)`: resolve the title to a row id
(possibly raising), then rank. -/
def tfidfRecommendTitles (strSim : String → String → ℚ) (m : List (String × Nat))
    (df : List String) (M : List (List ℚ)) (title : String) (topN : Int) :
    Except LocalErr (List (String × ℚ)) :=
  (getLocalIdxByTitle strSim m title).map (fun idx => tfidfFromIdx df M idx topN)

/-- A raw movie object from a TMDB JSON `results` array; `none` fields are
keys that are absent or `null` in the JSON (`m.get(...)` gives `None`,
`m["..."]` raises). -/
structure RawMovie : Type where
  id : Option Int := none
  title : Option String := none
  posterPath : Option String := none
  releaseDate : Option String := none
  voteAverage : Option ℚ := none
deriving DecidableEq

/-- The `TMDBMovieCard` pydantic model. -/
structure TMDBMovieCard : Type where
  tmdbId : Int
  title : String
  posterUrl : Option String := none
  releaseDate : Option String := none
  voteAverage : Option ℚ := none
deriving DecidableEq

/-- The `TMDBMovieDetails` pydantic model; a genre record is kept as its
id, the only field the orchestrator reads (`details.genres[0]["id"]`). -/
structure TMDBMovieDetails : Type where
  tmdbId : Int
  title : String
  overview : Option String := none
  releaseDate : Option String := none
  posterUrl : Option String := none
  backdropUrl : Option String := none
  genres : List Int := []
deriving DecidableEq

/-- The `TFIDFRecItem` pydantic model. -/
structure TFIDFRecItem : Type where
  title : String
  score : ℚ
  tmdb : Option TMDBMovieCard := none
deriving DecidableEq

/-- The `SearchBundleResponse` pydantic model. -/
structure SearchBundleResponse : Type where
  query : String
  movieDetails : TMDBMovieDetails
  tfidfRecommendations : List TFIDFRecItem
  genreRecommendations : List TMDBMovieCard
deriving DecidableEq

/-- Outcomes of the external TMDB calls made by the orchestrator. An
`.error ()` is a raised exception (non-200 status mapped to
`HTTPException(502)` by `tmdb_get`, or a transport/JSON failure). -/
structure CatalogEnv : Type where
  searchFirst : String → Except Unit (Option RawMovie)
  movieDetails : Int → Except Unit TMDBMovieDetails
  discover : Int → Except Unit (List RawMovie)

/-- Error outcomes of the `/movie/search` route: the explicit
`HTTPException(404, "Movie not found")`, a propagated `HTTPException(502)`
from `tmdb_get`, and any other uncaught exception (HTTP 500), such as the
`KeyError` of `best["id"]` or of `int(m["id"])` in the genre cards. -/
inductive BundleErr : Type
  | notFound : BundleErr
  | upstream : BundleErr
  | internal : BundleErr
deriving DecidableEq

instance {ε α : Type} [DecidableEq ε] [DecidableEq α] : DecidableEq (Except ε α) :=
  fun x y =>
    match x, y with
    | .ok a, .ok b =>
        if h : a = b then isTrue (by rw [h]) else isFalse (by simp [h])
    | .error a, .error b =>
        if h : a = b then isTrue (by rw [h]) else isFalse (by simp [h])
    | .ok _, .error _ => isFalse (by simp)
    | .error _, .ok _ => isFalse (by simp)

/-- `attach_tmdb_card_by_title(title)`: one enrichment lookup. The whole
body runs under `try/except Exception: return None`, so an upstream error,
an empty result, a missing `id` (`m["id"]` raises `KeyError`), or a
missing `title` (pydantic rejects `title=None`) all give `none`. -/
def attachTmdbCardByTitle (env : CatalogEnv) (title : String) : Option TMDBMovieCard :=
  match env.searchFirst title with
  | .error _ => none
  | .ok none => none
  | .ok (some m) =>
      match m.id, m.title with
      | some i, some t =>
          some { tmdbId := i, title := t, posterUrl := makeImgUrl m.posterPath,
                 releaseDate := m.releaseDate, voteAverage := m.voteAverage }
      | some _, none => none
      | none, _ => none

/-- One card of `tmdb_cards_from_results`: `int(m["id"])` raises when the
`id` key is absent (not caught there), `title` falls back to `""`. -/
def cardOfResult (m : RawMovie) : Except Unit TMDBMovieCard :=
  match m.id with
  | none => .error ()
  | some i =>
      .ok { tmdbId := i, title := m.title.getD "", posterUrl := makeImgUrl m.posterPath,
            releaseDate := m.releaseDate, voteAverage := m.voteAverage }

/-- `tmdb_cards_from_results(results, limit)`: cards for the first `limit`
results; a missing `id` anywhere in that slice raises. -/
def cardsFromResults (results : List RawMovie) (limit : Int) :
    Except Unit (List TMDBMovieCard) :=
  (pyTake limit results).mapM cardOfResult

/-- The `try/except` around `tfidf_recommend_titles` in `search_bundle`:
any raised exception is caught and replaced by the empty list. -/
def caughtRecs {ε : Type} (localRec : String → Int → Except ε (List (String × ℚ)))
    (title : String) (topN : Int) : List (String × ℚ) :=
  match localRec title topN with
  | .ok r => r
  | .error _ => []

/-- The genre-discovery step of `search_bundle`: nothing when the details
carry no genres; otherwise discover by the first genre id (a raised
`HTTPException(502)` propagates) and build the cards (a missing result id
raises an uncaught `KeyError`, HTTP 500). -/
def genreStep (env : CatalogEnv) (details : TMDBMovieDetails) (genreLimit : Int) :
    Except BundleErr (List TMDBMovieCard) :=
  match details.genres with
  | [] => .ok []
  | gid :: _ =>
      match env.discover gid with
      | .error _ => .error .upstream
      | .ok results =>
          match cardsFromResults results genreLimit with
          | .error _ => .error .internal
          | .ok cards => .ok cards

/-- The fallback synthesis: `TFIDFRecItem(title=c.title, score=0.0, tmdb=c)`
for each of the first `top_n` genre cards (a Python slice). -/
def fallbackItems (genreRecs : List TMDBMovieCard) (topN : Int) : List TFIDFRecItem :=
  (pyTake topN genreRecs).map (fun c => { title := c.title, score := 0, tmdb := some c })

/-- The `/movie/search` handler `search_bundle(query, tfidf_top_n,
genre_limit)`, parametrized by the environment of TMDB call outcomes and by
the local similarity function (abstracting `tfidf_recommend_titles`, whose
failures of any error type `ε` the handler catches). -/
def searchBundle {ε : Type} (env : CatalogEnv)
    (localRec : String → Int → Except ε (List (String × ℚ)))
    (query : String) (tfidfTopN : Int) (genreLimit : Int) :
    Except BundleErr SearchBundleResponse :=
  match env.searchFirst query with
  | .error _ => .error .upstream
  | .ok none => .error .notFound
  | .ok (some best) =>
      match best.id with
      | none => .error .internal
      | some bid =>
          match env.movieDetails bid with
          | .error _ => .error .upstream
          | .ok details =>
              let recs := caughtRecs localRec details.title tfidfTopN
              let tfidfItems := recs.map (fun ts =>
                { title := ts.1, score := ts.2,
                  tmdb := attachTmdbCardByTitle env ts.1 : TFIDFRecItem })
              match genreStep env details genreLimit with
              | .error e => .error e
              | .ok genreRecs =>
                  let finalItems :=
                    if tfidfItems = [] ∧ genreRecs ≠ [] then
                      fallbackItems genreRecs tfidfTopN
                    else tfidfItems
                  .ok { query := query, movieDetails := details,
                        tfidfRecommendations := finalItems,
                        genreRecommendations := genreRecs }

/-- Local similarity step that returns no items (the value the orchestrator
behaves as receiving when `tfidf_recommend_titles` raises). -/
def emptyLocal : String → Int → Except Unit (List (String × ℚ)) := fun _ _ => .ok []

/-- A similarity ratio that rejects everything (no key reaches the cutoff). -/
def strSim0 : String → String → ℚ := fun _ _ => 0

/-- A similarity ratio giving the query `"abcdxx"` ratio 2/3 to the key
`"abcdef"` (the `SequenceMatcher` value for that pair) and 0 otherwise. -/
def simW : String → String → ℚ :=
  fun q k => if q = "abcdxx" ∧ k = "abcdef" then mkRat 2 3 else 0

/-- Two-row artifacts with empty feature rows (all similarity scores 0). -/
def dfPair : List String := ["alpha", "beta"]

/-- Title index of the two-row artifacts. -/
def mPair : List (String × Nat) := [("alpha", 0), ("beta", 1)]

/-- TF-IDF matrix of the two-row artifacts. -/
def MPair : List (List ℚ) := [[], []]

/-- Three-row artifacts with empty feature rows. -/
def dfTri : List String := ["alpha", "beta", "gamma"]

/-- TF-IDF matrix of the three-row artifacts. -/
def MTri : List (List ℚ) := [[], [], []]

/-- A small title index for resolver examples. -/
def mResolver : List (String × Nat) := [("abc", 5), ("def", 6)]

/-- A one-key title index for fuzzy-resolution examples. -/
def mFuzzy : List (String × Nat) := [("abcdef", 3)]

/-- A raw search hit for the query `"q"`. -/
def bestEx : RawMovie := { id := some 7, title := some "Q" }

/-- Details of the resolved movie, with one genre. -/
def detailsEx : TMDBMovieDetails := { tmdbId := 7, title := "Q", genres := [28] }

/-- First raw genre-discovery result. -/
def gRaw1 : RawMovie := { id := some 1, title := some "g1" }

/-- Second raw genre-discovery result. -/
def gRaw2 : RawMovie := { id := some 2, title := some "g2" }

/-- Card built from the first genre-discovery result. -/
def card1 : TMDBMovieCard := { tmdbId := 1, title := "g1" }

/-- Card built from the second genre-discovery result. -/
def card2 : TMDBMovieCard := { tmdbId := 2, title := "g2" }

/-- An environment where `"q"` resolves, details carry genre 28, and genre
discovery returns two results. -/
def envEx : CatalogEnv :=
  { searchFirst := fun q => if q = "q" then .ok (some bestEx) else .ok none,
    movieDetails := fun _ => .ok detailsEx,
    discover := fun _ => .ok [gRaw1, gRaw2] }

/-- A local similarity step that always raises. -/
def localFail : String → Int → Except Unit (List (String × ℚ)) := fun _ _ => .error ()

/-- An environment where every catalog call fails. -/
def envFail : CatalogEnv :=
  { searchFirst := fun _ => .error (), movieDetails := fun _ => .error (),
    discover := fun _ => .error () }

/-! ## Helper lemmas -/

theorem dictLookup_insert (m : List (String × Nat)) (k : String) (v : Nat) (k1 : String) :
    dictLookup (dictInsert m k v) k1 = if k1 = k then some v else dictLookup m k1 := by
  induction m with
  | nil =>
      by_cases h : k1 = k
      · simp [dictLookup, dictInsert, List.find?_cons, h]
      · simp [dictLookup, dictInsert, List.find?_cons, h, Ne.symm h]
  | cons p m ih =>
      by_cases hpk : p.1 = k
      · by_cases hk : k1 = k
        · simp [dictLookup, dictInsert, List.find?_cons, hpk, hk]
        · simp [dictLookup, dictInsert, List.find?_cons, hpk, hk, Ne.symm hk]
      · by_cases hp1 : p.1 = k1
        · have hk : ¬ k1 = k := fun h => hpk (hp1.trans h)
          simp [dictLookup, dictInsert, List.find?_cons, hpk, hp1, hk]
        · have h1 : dictLookup (p :: dictInsert m k v) k1 = dictLookup (dictInsert m k v) k1 := by
            simp [dictLookup, List.find?_cons, hp1]
          have h2 : dictLookup (p :: m) k1 = dictLookup m k1 := by
            simp [dictLookup, List.find?_cons, hp1]
          simp only [dictInsert, if_neg hpk]
          rw [h1, ih, h2]

theorem dictLookup_buildFold (l : List (String × Nat)) :
    ∀ (acc : List (String × Nat)) (k : String),
      dictLookup (l.foldl (fun m p => dictInsert m (normTitle p.1) p.2) acc) k
        = ((l.reverse.find? (fun p => normTitle p.1 = k)).map Prod.snd).or
            (dictLookup acc k) := by
  induction l with
  | nil => intro acc k; simp
  | cons p l ih =>
      intro acc k
      rw [List.foldl_cons, ih, List.reverse_cons, List.find?_append]
      cases hf : l.reverse.find? (fun q => decide (normTitle q.1 = k)) with
      | some q => simp [Option.or]
      | none =>
          rw [dictLookup_insert]
          by_cases hp : normTitle p.1 = k
          · simp [List.find?_cons, hp, Option.or]
          · simp [List.find?_cons, hp, Ne.symm hp, Option.or]

theorem collectTop_not_mem (idx : Nat) (topN : Int) :
    ∀ (l : List Nat) (cnt : Nat), idx ∉ collectTop idx topN l cnt := by
  intro l
  induction l with
  | nil => intro cnt; simp [collectTop]
  | cons i rest ih =>
      intro cnt
      simp only [collectTop]
      by_cases hi : i = idx
      · rw [if_pos hi]; exact ih cnt
      · rw [if_neg hi]
        by_cases hc : topN ≤ (cnt + 1 : Int)
        · rw [if_pos hc]
          simp only [List.mem_singleton]
          exact fun h => hi h.symm
        · rw [if_neg hc]
          simp only [List.mem_cons, not_or]
          exact ⟨fun h => hi h.symm, ih (cnt + 1)⟩

theorem collectTop_sublist (idx : Nat) (topN : Int) :
    ∀ (l : List Nat) (cnt : Nat), (collectTop idx topN l cnt).Sublist l := by
  intro l
  induction l with
  | nil => intro cnt; simp [collectTop]
  | cons i rest ih =>
      intro cnt
      simp only [collectTop]
      by_cases hi : i = idx
      · rw [if_pos hi]; exact (ih cnt).cons i
      · rw [if_neg hi]
        by_cases hc : topN ≤ (cnt + 1 : Int)
        · rw [if_pos hc]; exact (List.nil_sublist rest).cons₂ i
        · rw [if_neg hc]; exact (ih (cnt + 1)).cons₂ i

theorem collectTop_length (idx : Nat) (topN : Int) :
    ∀ (l : List Nat) (cnt : Nat), (cnt : Int) < topN →
      ((collectTop idx topN l cnt).length : Int) ≤ topN - cnt := by
  intro l
  induction l with
  | nil => intro cnt h; simp [collectTop]; omega
  | cons i rest ih =>
      intro cnt h
      simp only [collectTop]
      by_cases hi : i = idx
      · rw [if_pos hi]; exact ih cnt h
      · rw [if_neg hi]
        by_cases hc : topN ≤ (cnt + 1 : Int)
        · rw [if_pos hc]; simp; omega
        · rw [if_neg hc]
          have := ih (cnt + 1) (by push_cast; omega)
          simp only [List.length_cons]
          push_cast at this ⊢
          omega

theorem argsortDesc_sorted (s : Nat → ℚ) (n : Nat) :
    List.Pairwise (fun i j => s j ≤ s i) (argsortDesc s n) := by
  letI : IsTotal Nat (fun i j => s j ≤ s i) := ⟨fun a b => le_total (s b) (s a)⟩
  letI : IsTrans Nat (fun i j => s j ≤ s i) := ⟨fun a b c hab hbc => le_trans hbc hab⟩
  exact List.sorted_insertionSort _ _

theorem genreStep_ne_notFound (env : CatalogEnv) (details : TMDBMovieDetails)
    (gl : Int) : genreStep env details gl ≠ .error .notFound := by
  unfold genreStep
  rcases details.genres with _ | ⟨gid, rest⟩
  · simp
  · cases hd : env.discover gid with
    | error e => simp [hd]
    | ok results => cases hc : cardsFromResults results gl <;> simp [hd, hc]

/-! ## Claim theorems -/

/-- Claim C9: the title index built by `build_title_to_idx_map` maps each
normalized key to exactly one row id, namely the row of the last-loaded
entry whose normalized title equals that key (later entries overwrite
earlier ones); keys with no matching entry are absent. -/
theorem title_index_last_wins (indices : List (String × Nat)) (k : String) :
    dictLookup (buildTitleToIdxMap indices) k
      = (indices.reverse.find? (fun p => normTitle p.1 = k)).map Prod.snd := by
  rw [buildTitleToIdxMap, dictLookup_buildFold]
  simp [dictLookup]

/-- Claim C4: when the normalized title is a key of the title index,
`get_local_idx_by_title` returns exactly the row id the index maps it to,
for every similarity ratio function — the exact-match path takes
precedence and the fuzzy-match path is never consulted. -/
theorem exact_match_precedence (m : List (String × Nat)) (t : String) (v : Nat)
    (h : dictLookup m (normTitle t) = some v) :
    ∀ strSim : String → String → ℚ, getLocalIdxByTitle strSim m t = .ok v := by
  intro strSim
  unfold getLocalIdxByTitle
  rw [h]

/-- Claim C4 witness: `" ABC "` normalizes to the key `"abc"`, mapped to
row 5, and resolution returns 5 under an arbitrary ratio function. -/
theorem exact_match_precedence_witness :
    dictLookup mResolver (normTitle " ABC ") = some 5 ∧
    getLocalIdxByTitle strSim0 mResolver " ABC " = .ok 5 :=
  ⟨by decide, exact_match_precedence mResolver " ABC " 5 (by decide) strSim0⟩

/-- Claim C5: for a title whose normalization is not a key of the index,
if exactly one index key reaches the similarity cutoff 0.6 then
`get_local_idx_by_title` returns the row id that key maps to, and if no
key reaches the cutoff it fails with the 404 `NotFound`. -/
theorem fuzzy_resolution_law (strSim : String → String → ℚ)
    (m : List (String × Nat)) (t : String)
    (hmiss : dictLookup m (normTitle t) = none) :
    (∀ (k1 : String) (v : Nat),
        (m.map Prod.fst).filter (fun k => simCutoff ≤ strSim (normTitle t) k) = [k1] →
        dictLookup m k1 = some v →
        getLocalIdxByTitle strSim m t = .ok v) ∧
    ((m.map Prod.fst).filter (fun k => simCutoff ≤ strSim (normTitle t) k) = [] →
        getLocalIdxByTitle strSim m t = .error .notFound) := by
  constructor
  · intro k1 v hf hv
    unfold getLocalIdxByTitle
    rw [hmiss]
    unfold getBestLocalTitle
    rw [hf]
    simp only [pickBest, List.foldl_cons, List.foldl_nil]
    rw [hv]
  · intro hf
    unfold getLocalIdxByTitle
    rw [hmiss]
    unfold getBestLocalTitle
    rw [hf]
    simp [pickBest]

/-- Claim C5 witness: `"abcdxx"` is not a key of the one-key index; under
a ratio giving `"abcdef"` the value 2/3 ≥ 0.6 the resolver returns row 3,
and under the all-zero ratio it fails with the 404. -/
theorem fuzzy_resolution_law_witness :
    dictLookup mFuzzy (normTitle "abcdxx") = none ∧
    (mFuzzy.map Prod.fst).filter
        (fun k => simCutoff ≤ simW (normTitle "abcdxx") k) = ["abcdef"] ∧
    getLocalIdxByTitle simW mFuzzy "abcdxx" = .ok 3 ∧
    (mFuzzy.map Prod.fst).filter
        (fun k => simCutoff ≤ strSim0 (normTitle "abcdxx") k) = [] ∧
    getLocalIdxByTitle strSim0 mFuzzy "abcdxx" = .error .notFound := by
  refine ⟨by decide, by decide, ?_, by decide, ?_⟩
  · exact (fuzzy_resolution_law simW mFuzzy "abcdxx" (by decide)).1 "abcdef" 3
      (by decide) (by decide)
  · exact (fuzzy_resolution_law strSim0 mFuzzy "abcdxx" (by decide)).2 (by decide)

/-- Claim C2 (amended): for every row id and every `top_n`, the ranking
never emits the query row itself and its items are sorted by
non-increasing similarity score; the length is bounded by `top_n`
whenever `top_n ≥ 1` (for `top_n ≤ 0` the post-append break of the loop can
still emit one item, so the bound fails there). -/
theorem rank_properties (df : List String) (M : List (List ℚ)) (idx : Nat)
    (topN : Int) :
    idx ∉ rankRows M idx topN ∧
    List.Pairwise (fun p q : String × ℚ => q.2 ≤ p.2) (tfidfFromIdx df M idx topN) ∧
    ((1 : Int) ≤ topN → ((tfidfFromIdx df M idx topN).length : Int) ≤ topN) := by
  refine ⟨collectTop_not_mem idx topN _ 0, ?_, ?_⟩
  · have hsorted := argsortDesc_sorted (scoresOf M idx) M.length
    have hsub := collectTop_sublist idx topN (argsortDesc (scoresOf M idx) M.length) 0
    have hp : List.Pairwise (fun i j => scoresOf M idx j ≤ scoresOf M idx i)
        (rankRows M idx topN) := List.Pairwise.sublist hsub hsorted
    rw [tfidfFromIdx]
    exact hp.map _ (fun a b h => h)
  · intro h1
    rw [tfidfFromIdx, List.length_map]
    have := collectTop_length idx topN (argsortDesc (scoresOf M idx) M.length) 0
      (by omega)
    simpa [rankRows] using this

/-- Claim C2 witness: on the three-row artifacts with `top_n = 2` the
ranking for row 0 has at most 2 items. -/
theorem rank_properties_witness :
    (1 : Int) ≤ 2 ∧ ((tfidfFromIdx dfTri MTri 0 2).length : Int) ≤ 2 :=
  ⟨by decide, (rank_properties dfTri MTri 0 2).2.2 (by decide)⟩

/-- Claim C2 counterexample: with `top_n = 0` (an `int` the route accepts)
and a two-row index, `tfidf_recommend_titles` returns one item, so the
claimed bound `length ≤ top_n` fails: the break `len(out) >= top_n` runs
only after the first append. -/
theorem rank_topn_cex :
    tfidfRecommendTitles strSim0 mPair dfPair MPair "alpha" 0
      = .ok [("beta", 0)] ∧
    ¬ ((((tfidfRecommendTitles strSim0 mPair dfPair MPair "alpha" 0).toOption.getD
          []).length : Int) ≤ 0) := by
  constructor
  · decide
  · decide

/-- Claim C6: `search_bundle` fails with the 404 `NotFound` if and only if
the catalog search for the query returned no results; failures of the
details fetch, the local similarity step, the enrichment step, or genre
discovery never produce a `NotFound` outcome. -/
theorem notFound_iff_search_empty {ε : Type} (env : CatalogEnv)
    (localRec : String → Int → Except ε (List (String × ℚ)))
    (q : String) (tn gl : Int) :
    searchBundle env localRec q tn gl = .error .notFound ↔
      env.searchFirst q = .ok none := by
  unfold searchBundle
  cases hs : env.searchFirst q with
  | error e => simp
  | ok o =>
      cases o with
      | none => simp
      | some best =>
          simp only [Except.ok.injEq, reduceCtorEq, iff_false]
          cases hid : best.id with
          | none => simp
          | some bid =>
              cases hd : env.movieDetails bid with
              | error e => simp [hd]
              | ok details =>
                  cases hg : genreStep env details gl with
                  | error e =>
                      simp only [hd, hg]
                      intro he
                      have he2 : e = BundleErr.notFound := by injection he
                      rw [he2] at hg
                      exact genreStep_ne_notFound env details gl hg
                  | ok gcards => simp [hd, hg]

/-- Claim C1 (amended): whenever the query resolves, the details fetch
succeeds, the local similarity step yields zero items, genre discovery
yields at least one card, and `top_n ≥ 0`, then the similarity list
of the returned bundle is exactly the first `top_n` genre cards in genre-card
order, each with score 0.0 and carrying its genre card as enrichment, so
its length is `min(top_n, genre_card_count)`. (For negative `top_n` the
Python slice `genre_recs[:top_n]` drops cards from the end instead, so
the `min` law fails there — see the counterexample.) -/
theorem fallback_law {ε : Type} (env : CatalogEnv)
    (localRec : String → Int → Except ε (List (String × ℚ)))
    (q : String) (topN gl : Int) (best : RawMovie) (bid : Int)
    (details : TMDBMovieDetails) (genreRecs : List TMDBMovieCard)
    (h1 : env.searchFirst q = .ok (some best)) (h2 : best.id = some bid)
    (h3 : env.movieDetails bid = .ok details)
    (h4 : caughtRecs localRec details.title topN = [])
    (h5 : genreStep env details gl = .ok genreRecs)
    (h6 : genreRecs ≠ []) (h7 : 0 ≤ topN) :
    searchBundle env localRec q topN gl = .ok
      { query := q, movieDetails := details,
        tfidfRecommendations := (genreRecs.take topN.toNat).map
          (fun c => { title := c.title, score := 0, tmdb := some c }),
        genreRecommendations := genreRecs } ∧
    ((genreRecs.take topN.toNat).map
        (fun c => ({ title := c.title, score := 0, tmdb := some c } : TFIDFRecItem))).length
      = min topN.toNat genreRecs.length ∧
    ∀ item ∈ (genreRecs.take topN.toNat).map
        (fun c => ({ title := c.title, score := 0, tmdb := some c } : TFIDFRecItem)),
      item.score = 0 := by
  refine ⟨?_, ?_, ?_⟩
  · unfold searchBundle
    simp only [h1, h2, h3, h5, h4, List.map_nil]
    rw [if_pos ⟨trivial, h6⟩]
    unfold fallbackItems pyTake
    rw [if_pos h7]
  · rw [List.length_map, List.length_take]
  · intro item him
    rcases List.mem_map.1 him with ⟨c, hc, rfl⟩
    rfl

/-- Claim C1 witness: in the concrete environment the fallback fires with
`top_n = 1` and two genre cards, giving the one-card similarity list. -/
theorem fallback_law_witness :
    searchBundle envEx localFail "q" 1 12 = .ok
      { query := "q", movieDetails := detailsEx,
        tfidfRecommendations := ([card1, card2].take (1 : Int).toNat).map
          (fun c => { title := c.title, score := 0, tmdb := some c }),
        genreRecommendations := [card1, card2] } ∧
    (([card1, card2].take (1 : Int).toNat).map
        (fun c => ({ title := c.title, score := 0, tmdb := some c } : TFIDFRecItem))).length
      = min (1 : Int).toNat [card1, card2].length ∧
    ∀ item ∈ ([card1, card2].take (1 : Int).toNat).map
        (fun c => ({ title := c.title, score := 0, tmdb := some c } : TFIDFRecItem)),
      item.score = 0 :=
  fallback_law envEx localFail "q" 1 12 bestEx 7 detailsEx [card1, card2]
    (by decide) (by decide) (by decide) (by decide) (by decide) (by decide) (by decide)

/-- Claim C1 counterexample: with `top_n = -1` (an `int` the route
accepts) the local step yields zero items and genre discovery yields two
cards, yet the returned similarity list has one item while the claimed
length `min(top_n, genre_card_count)` would be `min(-1, 2) = -1`. -/
theorem fallback_min_cex :
    caughtRecs localFail detailsEx.title (-1) = [] ∧
    searchBundle envEx localFail "q" (-1) 12 = .ok
      { query := "q", movieDetails := detailsEx,
        tfidfRecommendations := [{ title := "g1", score := 0, tmdb := some card1 }],
        genreRecommendations := [card1, card2] } ∧
    ¬ ((1 : Int) = min (-1 : Int) 2) := by
  refine ⟨by decide, by decide, by decide⟩

/-- Claim C7: when the query resolves and the details fetch succeeds, any
failure raised by the local similarity step is caught inside the handler
and treated as the empty list: the bundle equals the one computed with a
local step returning zero items, and no error is surfaced. -/
theorem local_failure_isolated {ε : Type} (env : CatalogEnv)
    (localRec : String → Int → Except ε (List (String × ℚ)))
    (q : String) (tn gl : Int) (best : RawMovie) (bid : Int)
    (details : TMDBMovieDetails) (e : ε)
    (h1 : env.searchFirst q = .ok (some best)) (h2 : best.id = some bid)
    (h3 : env.movieDetails bid = .ok details)
    (h4 : localRec details.title tn = .error e) :
    caughtRecs localRec details.title tn = [] ∧
    searchBundle env localRec q tn gl = searchBundle env emptyLocal q tn gl := by
  have hc : caughtRecs localRec details.title tn = [] := by
    unfold caughtRecs
    rw [h4]
  refine ⟨hc, ?_⟩
  have he : caughtRecs emptyLocal details.title tn = [] := rfl
  unfold searchBundle
  simp only [h1, h2, h3, hc, he]

/-- Claim C7 witness: with the always-raising local step the bundle equals
the bundle of the empty local step. -/
theorem local_failure_isolated_witness :
    caughtRecs localFail detailsEx.title 3 = [] ∧
    searchBundle envEx localFail "q" 3 12 = searchBundle envEx emptyLocal "q" 3 12 :=
  local_failure_isolated envEx localFail "q" 3 12 bestEx 7 detailsEx ()
    (by decide) (by decide) (by decide) (by decide)

/-- Claim C8: the enrichment lookup `attach_tmdb_card_by_title` always
returns a card or `None`, never an exception: an upstream failure, an
empty search result, or a missing `id`/`title` field each give `None`,
and a card is returned only from a fully successful call. -/
theorem attach_card_best_effort (env : CatalogEnv) (t : String) :
    (∀ e : Unit, env.searchFirst t = .error e → attachTmdbCardByTitle env t = none) ∧
    (env.searchFirst t = .ok none → attachTmdbCardByTitle env t = none) ∧
    (∀ m : RawMovie, env.searchFirst t = .ok (some m) →
      m.id = none ∨ m.title = none → attachTmdbCardByTitle env t = none) ∧
    (attachTmdbCardByTitle env t = none ∨
      ∃ c : TMDBMovieCard, attachTmdbCardByTitle env t = some c) := by
  refine ⟨?_, ?_, ?_, ?_⟩
  · intro e he
    unfold attachTmdbCardByTitle
    simp only [he]
  · intro he
    unfold attachTmdbCardByTitle
    simp only [he]
  · intro m hm hmt
    unfold attachTmdbCardByTitle
    simp only [hm]
    rcases hmt with h | h
    · simp only [h]
    · cases hid : m.id with
      | none => simp only [hid]
      | some i => simp only [hid, h]
  · cases hres : attachTmdbCardByTitle env t with
    | none => exact Or.inl rfl
    | some c => exact Or.inr ⟨c, rfl⟩

/-- Claim C8 witness: when the underlying catalog call fails, the
enrichment yields `None`. -/
theorem attach_card_best_effort_witness :
    attachTmdbCardByTitle envFail "x" = none :=
  (attach_card_best_effort envFail "x").1 () (by decide)

/-- Claim C10: the fallback only ever replaces the similarity list — for
every bundle the handler returns, `genre_recommendations` is exactly the
output of the genre-discovery step (empty when the resolved details carry
no genres) and `query` and `movie_details` equal the original query and
the resolved details. -/
theorem genre_frame {ε : Type} (env : CatalogEnv)
    (localRec : String → Int → Except ε (List (String × ℚ)))
    (q : String) (tn gl : Int) (best : RawMovie) (bid : Int)
    (details : TMDBMovieDetails) (gcards : List TMDBMovieCard)
    (h1 : env.searchFirst q = .ok (some best)) (h2 : best.id = some bid)
    (h3 : env.movieDetails bid = .ok details)
    (h5 : genreStep env details gl = .ok gcards) :
    (∃ items : List TFIDFRecItem, searchBundle env localRec q tn gl = .ok
      { query := q, movieDetails := details, tfidfRecommendations := items,
        genreRecommendations := gcards }) ∧
    (details.genres = [] → gcards = []) := by
  constructor
  · refine ⟨?_, ?_⟩
    · exact if (caughtRecs localRec details.title tn).map (fun ts =>
          { title := ts.1, score := ts.2,
            tmdb := attachTmdbCardByTitle env ts.1 : TFIDFRecItem }) = [] ∧ gcards ≠ []
        then fallbackItems gcards tn
        else (caughtRecs localRec details.title tn).map (fun ts =>
          { title := ts.1, score := ts.2, tmdb := attachTmdbCardByTitle env ts.1 })
    · unfold searchBundle
      simp only [h1, h2, h3, h5]
  · intro hg
    unfold genreStep at h5
    rw [hg] at h5
    simp only [] at h5
    injection h5 with h
    exact h.symm

/-- Claim C10 witness: in the concrete environment the bundle carries the
query, the resolved details, and exactly the genre-discovery cards. -/
theorem genre_frame_witness :
    (∃ items : List TFIDFRecItem, searchBundle envEx emptyLocal "q" 2 12 = .ok
      { query := "q", movieDetails := detailsEx, tfidfRecommendations := items,
        genreRecommendations := [card1, card2] }) ∧
    (detailsEx.genres = [] → [card1, card2] = []) :=
  genre_frame envEx emptyLocal "q" 2 12 bestEx 7 detailsEx [card1, card2]
    (by decide) (by decide) (by decide) (by decide)
